import Mathlib

/-!
Verification development for the `datascienceisrael/infrastructure`
repository: a shallow embedding of its Google Cloud Storage façade
(`src/infra/core/gcp/gcs.py` and `src/infra/gcp/gcs.py`), its logging
façade (`src/infra/gcp/gcl.py` and `src/src/logging.py`) and its MongoDB
façade (`src/infra/db.py`), together with theorems settling the frozen
claims about them.

Modelling conventions:
  - Each Python façade function becomes a pure Lean function.  The
    external vendor call that the function wraps is represented by an
    explicit outcome argument (which exception, if any, the vendor call
    raised), and on top of that a deterministic vendor-state model
    (buckets that exist, collections that exist) drives those outcomes
    for the end-to-end properties.
  - Emitting a structured log event is modelled as recording the
    arguments the façade passes to `gcl_log_event` (a `LogCall` value);
    `print` output is recorded as a string trace.
  - A Python function body evaluates to a `PyRun`: the trace of log
    calls, prints, `os.mkdir` calls and subprocess commands it performed,
    and its result - either a normal return value (`Option Bool`, where
    `none` is Python `None`, the value of a function body that falls off
    the end without `return`) or an uncaught exception (`PyError`).
-/

/-- Log severities, from `src/infra/enums.py` (`class LogSeverities`). -/
inductive LogSeverities where
  | DEBUG
  | INFO
  | WARNING
  | ERROR
  | CRITICAL
deriving DecidableEq, Repr

/-- Storage classes, from `src/infra/enums.py` (`class StorageClasses`). -/
inductive StorageClasses where
  | STANDARD
  | NEARLINE
  | COLDLINE
deriving DecidableEq, Repr

/-- The `.name` attribute of a member of `StorageClasses`. -/
def StorageClasses.pyName : StorageClasses → String
  | .STANDARD => "STANDARD"
  | .NEARLINE => "NEARLINE"
  | .COLDLINE => "COLDLINE"

/-- Environments, from `src/infra/enums.py` (`class Environments`).
Its members are exactly TEST, DEV, STAGING, PROD - the file defines no
INFRA member. -/
inductive Environments where
  | TEST
  | DEV
  | STAGING
  | PROD
deriving DecidableEq, Repr

/-- The `.name` attribute of a member of `Environments`. -/
def Environments.pyName : Environments → String
  | .TEST => "TEST"
  | .DEV => "DEV"
  | .STAGING => "STAGING"
  | .PROD => "PROD"

/-- Python attribute lookup of a member of `Environments` by name:
`getattr(Environments, s)`, `none` when the enum has no such member
(Python raises `AttributeError`). -/
def Environments.fromName (s : String) : Option Environments :=
  if s = "TEST" then some .TEST
  else if s = "DEV" then some .DEV
  else if s = "STAGING" then some .STAGING
  else if s = "PROD" then some .PROD
  else none

/-- All members of `Environments`, in declaration order. -/
def Environments.members : List Environments :=
  [.TEST, .DEV, .STAGING, .PROD]

/-- Modelled from the spec: `infra/core/enums.py` is imported by
`src/infra/core/gcp/gcs.py` but is not present under `src/`.  Per the
spec (section 3, LogEvent) the environment enumeration there has members
TEST, DEV, STAGING, PROD and INFRA. -/
inductive CoreEnvironments where
  | TEST
  | DEV
  | STAGING
  | PROD
  | INFRA
deriving DecidableEq, Repr

/-- A JSON-like value appearing in a structured log record or a vendor
response document. -/
inductive Value where
  | str (s : String)
  | int (n : Int)
  | bool (b : Bool)
  | vnull
  | sev (s : LogSeverities)
  | env (e : CoreEnvironments)
  | doc (d : List (String × String))
deriving DecidableEq, Repr

/-- Python `d[k]`-style lookup on an association list standing for a
`dict` (first binding of the key wins, as dict keys are unique). -/
def dlookup : List (String × Value) → String → Option Value
  | [], _ => none
  | p :: rest, k => if p.fst = k then some p.snd else dlookup rest k

/-- Python `base.update(extra)` on dicts: keys already in `base` keep
their position but take the value from `extra`; keys only in `extra`
are appended in order. -/
def dictUpdate (base extra : List (String × Value)) : List (String × Value) :=
  base.map (fun p =>
    match dlookup extra p.fst with
    | some v => (p.fst, v)
    | none => p)
  ++ extra.filter (fun p => (dlookup base p.fst).isNone)

theorem dlookup_append (l1 l2 : List (String × Value)) (k : String) :
    dlookup (l1 ++ l2) k =
      match dlookup l1 k with
      | some v => some v
      | none => dlookup l2 k := by
  induction l1 with
  | nil => simp [dlookup]
  | cons p rest ih =>
    by_cases h : p.fst = k <;> simp [dlookup, h, ih]

theorem dlookup_map_upd (extra base : List (String × Value)) (k : String) :
    dlookup (base.map (fun p =>
      match dlookup extra p.fst with
      | some v => (p.fst, v)
      | none => p)) k =
      match dlookup base k with
      | some v0 =>
        match dlookup extra k with
        | some v => some v
        | none => some v0
      | none => none := by
  induction base with
  | nil => simp [dlookup]
  | cons p rest ih =>
    by_cases h : p.fst = k
    · subst h
      cases hx : dlookup extra p.fst <;>
        simp [dlookup, hx]
    · cases hx : dlookup extra p.fst <;>
        simp [dlookup, h, hx, ih]

theorem dlookup_filter_none (base extra : List (String × Value)) (k : String)
    (h : dlookup base k = none) :
    dlookup (extra.filter (fun p => (dlookup base p.fst).isNone)) k =
      dlookup extra k := by
  induction extra with
  | nil => simp [dlookup]
  | cons p rest ih =>
    by_cases hpk : p.fst = k
    · have hb : dlookup base p.fst = none := by rw [hpk]; exact h
      simp [List.filter, dlookup, hb, hpk, h]
    · by_cases hkeep : (dlookup base p.fst).isNone <;>
        simp [List.filter, dlookup, hpk, hkeep, ih]

/-- Lookup semantics of `dict.update`: a key bound in `extra` resolves to
the `extra` value, otherwise to the `base` value. -/
theorem dlookup_dictUpdate (base extra : List (String × Value)) (k : String) :
    dlookup (dictUpdate base extra) k =
      match dlookup extra k with
      | some v => some v
      | none => dlookup base k := by
  unfold dictUpdate
  rw [dlookup_append, dlookup_map_upd]
  cases hb : dlookup base k with
  | some v0 => cases hx : dlookup extra k <;> simp [hx]
  | none =>
    rw [dlookup_filter_none base extra k hb]
    cases hx : dlookup extra k <;> simp [hx, hb]

/-- The arguments of one call of the logging façade (`gcl_log_event` or
the spec-modelled `infra.logging` equivalent): what the storage and
database façades emit on each branch. -/
structure LogCall where
  logger : String
  eventName : String
  message : String
  description : Option String := none
  severity : LogSeverities := .INFO
  environment : Option Environments := none
  kwargs : List (String × Value) := []
deriving DecidableEq, Repr

/-- An uncaught Python exception escaping a façade function. -/
inductive PyError where
  | attributeError (msg : String)
  | cloudError (msg : String)
  | typeError (msg : String)
  | otherException (msg : String)
deriving DecidableEq, Repr

/-- Python `str(e)` of an exception value. -/
def pyErrMsg : PyError → String
  | .attributeError m => m
  | .cloudError m => m
  | .typeError m => m
  | .otherException m => m

instance {ε α : Type} [DecidableEq ε] [DecidableEq α] :
    DecidableEq (Except ε α) := fun x y =>
  match x, y with
  | .ok a, .ok b =>
    if h : a = b then .isTrue (by rw [h])
    else .isFalse (fun hc => h (Except.ok.inj hc))
  | .error a, .error b =>
    if h : a = b then .isTrue (by rw [h])
    else .isFalse (fun hc => h (Except.error.inj hc))
  | .ok _, .error _ => .isFalse (fun hc => Except.noConfusion hc)
  | .error _, .ok _ => .isFalse (fun hc => Except.noConfusion hc)

/-- The observable evaluation of one Python façade-function body: the
traces of effects it performed and its result (`Option Bool` for a
normal return, `none` being Python `None`, or an uncaught exception). -/
structure PyRun where
  logs : List LogCall := []
  prints : List String := []
  mkdirCalls : List String := []
  commands : List (List String) := []
  result : Except PyError (Option Bool)
deriving DecidableEq, Repr

/-- Python value of a `description` argument: the string, or `None`. -/
def optValue : Option String → Value
  | some s => .str s
  | none => .vnull

/-- The structured record handed to the logging sink. -/
structure LogStruct where
  logger : String
  info : List (String × Value)
  severity : LogSeverities
deriving DecidableEq, Repr

/-- `gcl_log_event` from `src/infra/gcp/gcl.py`: builds the base dict
`(message, name, description, env)` where `env` is
`environment.name.lower()`, updates it with the keyword arguments, and
sends it to the sink with the severity name. -/
def gcl_log_event_gcp (logger_name event_name message : String)
    (description : Option String) (environment : Environments)
    (severity : LogSeverities)
    (kwargs : List (String × Value)) : LogStruct :=
  { logger := logger_name
    info := dictUpdate
      [("message", .str message),
       ("name", .str event_name),
       ("description", optValue description),
       ("env", .str environment.pyName.toLower)] kwargs
    severity := severity }

/-- `gcl_log_event` from `src/src/logging.py`: the base dict is
`(message, name, description)` - it has no `env` entry and the function
takes no environment parameter - updated with the keyword arguments. -/
def gcl_log_event_src (logger_name event_name message : String)
    (description : Option String) (severity : LogSeverities)
    (kwargs : List (String × Value)) : LogStruct :=
  { logger := logger_name
    info := dictUpdate
      [("message", .str message),
       ("name", .str event_name),
       ("description", optValue description)] kwargs
    severity := severity }

/-- The record that claim C10 describes, built from the spec words: the
base mapping `(message, name, description, env)` updated with the extra
keyword fields. -/
def claimedLogRecord (message event_name : String)
    (description : Option String) (env : String)
    (kwargs : List (String × Value)) : List (String × Value) :=
  dictUpdate
    [("message", .str message),
     ("name", .str event_name),
     ("description", optValue description),
     ("env", .str env)] kwargs

/-- `gcl_log_event` from `src/infra/core/gcp/gcl.py`: the refactored
form that takes the whole event as one dict - signature
`(logger_name, event, severity)`, with no `**kwargs`. -/
def gcl_log_event_core (logger_name : String)
    (event : List (String × Value)) (severity : LogSeverities) :
    LogStruct :=
  { logger := logger_name
    info := event
    severity := severity }

/-- The parameter names of `gcl_log_event_core`
(`src/infra/core/gcp/gcl.py`). -/
def coreGclParamNames : List String := ["logger_name", "event", "severity"]

/-- Python keyword binding for a call of the core `gcl_log_event`: the
call sites in `src/infra/core/gcp/gcs.py` still use the old
keyword-argument style (`event_name=...`, `message=...`,
`**log_metadata`), and binding the first keyword that is not among the
parameter names `(logger_name, event, severity)` raises `TypeError` in
the caller, before the function body runs.  `kwnames` are the keyword
names a call site passes, in order. -/
def coreGclKeywordCall (kwnames : List String) : Except PyError Unit :=
  match kwnames.find? (fun k => coreGclParamNames.contains k = false) with
  | some bad =>
    .error (.typeError
      ("gcl_log_event got an unexpected keyword argument " ++ bad))
  | none => .ok ()

/-- Outcome of the vendor calls
`_gcs_client.bucket` / `_gcs_client.create_bucket` inside
`create_bucket`: success, a `google.cloud.exceptions.Conflict`, or any
other vendor exception. -/
inductive CreateBucketVendor where
  | ok
  | conflict (msg : String)
  | otherError (msg : String)
deriving DecidableEq, Repr

/-- `create_bucket` from `src/infra/core/gcp/gcs.py`, over the vendor
outcome.  `unique_name = app_name + '_' + bucket_name`; the metadata
dict carries the unique name and `environment: Environments.INFRA`
(from the spec-modelled `infra.core.enums`).  It imports `gcl_log_event`
from `infra.core.gcp.gcl` but still calls it keyword-style, so both the
success-branch log call (inside the `try`, not caught by
`except Conflict`) and the `Conflict`-branch log call (inside the
handler) raise `TypeError`; were the binding to succeed, the success
branch would log at the default INFO severity and return True and the
`Conflict` branch would log at ERROR severity and return False.  Any
other vendor error propagates. -/
def create_bucket_core (o : CreateBucketVendor)
    (bucket_name app_name : String) (storage_class : StorageClasses)
    (logger_name : String) : PyRun :=
  let unique_name := app_name ++ "_" ++ bucket_name
  let log_metadata : List (String × Value) :=
    [("bucketName", .str unique_name),
     ("funcName", .str "create_bucket"),
     ("eventGroup", .str "Google Cloud Storage"),
     ("environment", .env .INFRA)]
  match o with
  | .ok =>
    match coreGclKeywordCall ["logger_name", "event_name", "message",
        "storageClass", "bucketName", "funcName", "eventGroup",
        "environment"] with
    | .error e => { result := .error e }
    | .ok _ =>
      { logs := [{ logger := logger_name
                   eventName := "Bucket Created"
                   message := "A new bucket was created"
                   kwargs := ("storageClass",
                     .str storage_class.pyName.toLower) :: log_metadata }]
        result := .ok (some true) }
  | .conflict msg =>
    match coreGclKeywordCall ["logger_name", "event_name", "message",
        "severity", "bucketName", "funcName", "eventGroup",
        "environment"] with
    | .error e => { result := .error e }
    | .ok _ =>
      { logs := [{ logger := logger_name
                   eventName := "Bucket Error"
                   message := msg
                   severity := .ERROR
                   kwargs := log_metadata }]
        result := .ok (some false) }
  | .otherError msg => { result := .error (.cloudError msg) }

/-- `create_bucket` from `src/infra/gcp/gcs.py`, over the vendor
outcome.  Both the success branch and the `Conflict` branch pass
`environment=Environments.INFRA` to `gcl_log_event`; evaluating that
attribute raises `AttributeError` when the `Environments` enum of
`src/infra/enums.py` has no INFRA member, and the exception escapes the
function (the `except Conflict` clause does not catch it). -/
def create_bucket_gcp (o : CreateBucketVendor)
    (bucket_name app_name : String) (storage_class : StorageClasses)
    (logger_name : String) : PyRun :=
  let log_metadata : List (String × Value) :=
    [("bucketName", .str bucket_name),
     ("funcName", .str "create_bucket"),
     ("eventGroup", .str "Google Cloud Storage")]
  match o with
  | .ok =>
    match Environments.fromName "INFRA" with
    | none =>
      { result := .error
          (.attributeError "type object Environments has no attribute INFRA") }
    | some e =>
      { logs := [{ logger := logger_name
                   eventName := "Bucket Created"
                   message := "A new bucket was created"
                   environment := some e
                   kwargs := log_metadata }]
        result := .ok (some true) }
  | .conflict msg =>
    match Environments.fromName "INFRA" with
    | none =>
      { result := .error
          (.attributeError "type object Environments has no attribute INFRA") }
    | some e =>
      { logs := [{ logger := logger_name
                   eventName := "Bucket Error"
                   message := msg
                   environment := some e
                   severity := .WARNING
                   kwargs := log_metadata }]
        result := .ok (some false) }
  | .otherError msg => { result := .error (.cloudError msg) }

/-- State of the external Google Cloud Storage service, with a trace of
the bucket names requested from the vendor creation call. -/
structure GcsState where
  buckets : List String := []
  createRequests : List String := []
deriving DecidableEq, Repr

/-- Modelled from the spec (section 6, storage contract; section 8):
the vendor bucket-creation call succeeds on a fresh name and raises
`Conflict` when a bucket of that name already exists.  The requested
name is recorded in `createRequests`. -/
def gcsVendorCreate (s : GcsState) (name : String) :
    GcsState × CreateBucketVendor :=
  let s1 := { s with createRequests := s.createRequests ++ [name] }
  if name ∈ s1.buckets then
    (s1, .conflict ("409 POST: bucket " ++ name ++ " already exists"))
  else
    ({ s1 with buckets := s1.buckets ++ [name] }, .ok)

/-- End-to-end `create_bucket` (core revision) against the vendor-state
model: the name handed to the vendor is the `unique_name` computed at
the top of the function. -/
def create_bucket_core_run (s : GcsState) (bucket_name app_name : String)
    (storage_class : StorageClasses) (logger_name : String) :
    GcsState × PyRun :=
  let unique_name := app_name ++ "_" ++ bucket_name
  let p := gcsVendorCreate s unique_name
  (p.fst, create_bucket_core p.snd bucket_name app_name storage_class
    logger_name)

/-- End-to-end `create_bucket` (`src/infra/gcp/gcs.py` revision) against
the vendor-state model. -/
def create_bucket_gcp_run (s : GcsState) (bucket_name app_name : String)
    (storage_class : StorageClasses) (logger_name : String) :
    GcsState × PyRun :=
  let unique_name := app_name ++ "_" ++ bucket_name
  let p := gcsVendorCreate s unique_name
  (p.fst, create_bucket_gcp p.snd bucket_name app_name storage_class
    logger_name)

/-- Outcome of the vendor lookups inside `download_artifact`
(`src/infra/core/gcp/gcs.py`): `get_bucket` raises `NotFound`; or
`get_blob` returns `None`; or the blob is found and
`download_to_filename` succeeds, raises `NotFound`, or raises some
other vendor error. -/
inductive DownloadVendor where
  | bucketMissing (msg : String)
  | blobMissing
  | found
  | foundDownloadNotFound (msg : String)
  | foundDownloadOtherError (msg : String)
deriving DecidableEq, Repr

/-- `download_artifact` from `src/infra/core/gcp/gcs.py`, over the
vendor outcome.  Every branch calls the imported
`infra.core.gcp.gcl.gcl_log_event` keyword-style, so each log call
raises `TypeError` - inside the `try` for the blob-is-None and success
branches (the `except NotFound` clause does not catch `TypeError`) and
inside the handler for the `NotFound` branches - and the exception
escapes the function.  The `.ok` arms record the behaviour the branch
would have if the keyword binding succeeded: the blob-is-None branch
one WARNING-severity event and `return False`; the `except NotFound`
handler one ERROR-severity event and then falling off the end of the
function (returning `None`, as the handler has no `return`).  `os.path`
joining is modelled as string concatenation with a separator, and the
host lookup `socket.gethostbyname` as the `server_ip` argument. -/
def download_artifact (o : DownloadVendor)
    (bucket_name object_name : String) (generation : Int)
    (dest_dir dest_file_name : String) (logger_name server_ip : String) :
    PyRun :=
  let dest_full_path := dest_dir ++ "/" ++ dest_file_name
  let log_metadata : List (String × Value) :=
    [("funcName", .str "download_artifact"),
     ("eventGroup", .str "Google Cloud Storage"),
     ("environment", .env .INFRA)]
  match o with
  | .bucketMissing msg =>
    match coreGclKeywordCall ["logger_name", "event_name", "message",
        "description", "severity", "funcName", "eventGroup",
        "environment"] with
    | .error e => { result := .error e }
    | .ok _ =>
      { logs := [{ logger := logger_name
                   eventName := "Artifact Downloading Error"
                   message := "Could not download the artifact."
                   description := some msg
                   severity := .ERROR
                   kwargs := log_metadata }]
        result := .ok none }
  | .blobMissing =>
    match coreGclKeywordCall ["logger_name", "event_name", "message",
        "severity", "objectName", "funcName", "eventGroup",
        "environment"] with
    | .error e => { result := .error e }
    | .ok _ =>
      { logs := [{ logger := logger_name
                   eventName := "Artifact Downloading Error"
                   message := "The requested object does not exist."
                   severity := .WARNING
                   kwargs := ("objectName", .str object_name) ::
                     log_metadata }]
        result := .ok (some false) }
  | .found =>
    match coreGclKeywordCall ["logger_name", "event_name", "message",
        "objectName", "bucketName", "objectGeneration",
        "localFileLocation", "localServerIP", "funcName", "eventGroup",
        "environment"] with
    | .error e => { result := .error e }
    | .ok _ =>
      { logs := [{ logger := logger_name
                   eventName := "Artifact Download"
                   message := "Artifact downloading completed successfully."
                   kwargs :=
                     ("objectName", .str object_name) ::
                     ("bucketName", .str bucket_name) ::
                     ("objectGeneration", .int generation) ::
                     ("localFileLocation", .str dest_full_path) ::
                     ("localServerIP", .str server_ip) :: log_metadata }]
        result := .ok (some true) }
  | .foundDownloadNotFound msg =>
    match coreGclKeywordCall ["logger_name", "event_name", "message",
        "description", "severity", "funcName", "eventGroup",
        "environment"] with
    | .error e => { result := .error e }
    | .ok _ =>
      { logs := [{ logger := logger_name
                   eventName := "Artifact Downloading Error"
                   message := "Could not download the artifact."
                   description := some msg
                   severity := .ERROR
                   kwargs := log_metadata }]
        result := .ok none }
  | .foundDownloadOtherError msg =>
    { result := .error (.cloudError msg) }

/-- `download_artifact` from `src/infra/gcp/gcs.py`, over the vendor
outcome.  Its `gcl_log_event` import (`infra.gcp.gcl`) does accept
keyword arguments, but every log call passes
`environment=Environments.INFRA`, and evaluating that attribute of the
`Environments` enum of `src/infra/enums.py` raises `AttributeError`
while the call arguments are being evaluated - inside the `try` for the
blob-is-None and success branches (not caught by `except NotFound`) and
inside the handler for the `NotFound` branch.  The `.some` arms record
the behaviour the branch would have if the member existed; this
revision labels its metadata `funcName: 'create_bucket'` (so in the
source) and, like the core revision, its `except NotFound` handler has
no `return` statement. -/
def download_artifact_gcp (o : DownloadVendor)
    (bucket_name object_name : String) (generation : Int)
    (dest_dir dest_file_name : String) (logger_name server_ip : String) :
    PyRun :=
  let dest_full_path := dest_dir ++ "/" ++ dest_file_name
  let log_metadata : List (String × Value) :=
    [("funcName", .str "create_bucket"),
     ("eventGroup", .str "Google Cloud Storage")]
  match o with
  | .bucketMissing msg =>
    match Environments.fromName "INFRA" with
    | none =>
      { result := .error
          (.attributeError "type object Environments has no attribute INFRA") }
    | some e =>
      { logs := [{ logger := logger_name
                   eventName := "Artifact Downloading Error"
                   message := "Could not download the artifact."
                   description := some msg
                   severity := .ERROR
                   environment := some e
                   kwargs := log_metadata }]
        result := .ok none }
  | .blobMissing =>
    match Environments.fromName "INFRA" with
    | none =>
      { result := .error
          (.attributeError "type object Environments has no attribute INFRA") }
    | some e =>
      { logs := [{ logger := logger_name
                   eventName := "Artifact Downloading Error"
                   message := "The requested object does no exist."
                   severity := .WARNING
                   environment := some e
                   kwargs := ("objectName", .str object_name) ::
                     log_metadata }]
        result := .ok (some false) }
  | .found =>
    match Environments.fromName "INFRA" with
    | none =>
      { result := .error
          (.attributeError "type object Environments has no attribute INFRA") }
    | some e =>
      { logs := [{ logger := logger_name
                   eventName := "Artifact Download"
                   message := "Artifact downloading completed successfully."
                   environment := some e
                   kwargs :=
                     ("artifactName", .str object_name) ::
                     ("artifactBucket", .str bucket_name) ::
                     ("artifactGeneration", .int generation) ::
                     ("localFileLocation", .str dest_full_path) ::
                     ("localServerIP", .str server_ip) :: log_metadata }]
        result := .ok (some true) }
  | .foundDownloadNotFound msg =>
    match Environments.fromName "INFRA" with
    | none =>
      { result := .error
          (.attributeError "type object Environments has no attribute INFRA") }
    | some e =>
      { logs := [{ logger := logger_name
                   eventName := "Artifact Downloading Error"
                   message := "Could not download the artifact."
                   description := some msg
                   severity := .ERROR
                   environment := some e
                   kwargs := log_metadata }]
        result := .ok none }
  | .foundDownloadOtherError msg =>
    { result := .error (.cloudError msg) }

/-- Outcome of `os.mkdir` inside `download_artifacts_bunch`. -/
inductive MkdirResult where
  | ok
  | oserror (msg : String)
deriving DecidableEq, Repr

/-- Outcome of `subprocess.run(download_command)`: the subprocess ran to
completion with some exit status (`subprocess.run` without `check=True`
does not raise on a nonzero status), or invoking it raised. -/
inductive RunSub where
  | completed (exitCode : Int)
  | raisedErr (msg : String)
deriving DecidableEq, Repr

/-- Python truthiness of the optional `data_cloud_path` argument: an
absent value and the empty string are falsy. -/
def dataCloudTruthy : Option String → Bool
  | some p => p ≠ ""
  | none => false

/-- The `gsutil` command list built by `download_artifacts_bunch`:
`['gsutil', 'cp', url, local_directory_path]`, with `-m` inserted after
`'gsutil'` when parallel download is requested and `-r` inserted after
`'cp'` when recursive download is requested. -/
def bunchCommand (bucket_name local_directory_path : String)
    (data_cloud_path : Option String)
    (activate_recursive_download activate_parallel_download : Bool) :
    List String :=
  let url := "gs://" ++ bucket_name
  let url := if dataCloudTruthy data_cloud_path then
      url ++ "/" ++ data_cloud_path.getD "" else url
  let cmd := ["gsutil", "cp", url, local_directory_path]
  let cmd := if activate_parallel_download then
      cmd.insertIdx (cmd.indexOf "gsutil" + 1) "-m" else cmd
  if activate_recursive_download then
    cmd.insertIdx (cmd.indexOf "cp" + 1) "-r" else cmd

/-- `download_artifacts_bunch` from `src/infra/core/gcp/gcs.py`.
`dir_exists` is the value of `os.path.exists(local_directory_path)`.
When the directory does not exist the function attempts `os.mkdir`: on
success no log call is made and the `return False` - placed inside the
`if` block but outside the `try/except` - runs, so the bulk-copy phase
is never reached; on `OSError` the handler's keyword-style call of the
core `gcl_log_event` raises `TypeError` and that `return False` is
never reached.  When the directory exists it runs the `gsutil` command
(`subprocess.run` without `check`); afterwards the success-branch log
call raises `TypeError` inside the `try`, `except Exception` catches
it (as it also catches a raising `subprocess.run` invocation), and the
handler's own log call raises `TypeError` again, which escapes.  The
`.ok` arms record what each branch would do if the keyword binding
succeeded. -/
def download_artifacts_bunch (dir_exists : Bool) (mk : MkdirResult)
    (sub : RunSub) (bucket_name local_directory_path : String)
    (data_cloud_path : Option String)
    (activate_recursive_download activate_parallel_download : Bool)
    (logger_name server_ip : String) : PyRun :=
  let log_metadata : List (String × Value) :=
    [("funcName", .str "download_artifacts_bunch"),
     ("eventGroup", .str "Google Cloud Storage"),
     ("environment", .env .INFRA)]
  if dir_exists = false then
    match mk with
    | .ok =>
      { mkdirCalls := [local_directory_path]
        result := .ok (some false) }
    | .oserror msg =>
      match coreGclKeywordCall ["logger_name", "event_name", "message",
          "description", "severity", "localDirectoryPath", "funcName",
          "eventGroup", "environment"] with
      | .error e =>
        { mkdirCalls := [local_directory_path]
          result := .error e }
      | .ok _ =>
        { mkdirCalls := [local_directory_path]
          logs := [{ logger := logger_name
                     eventName := "Directory Creation Error"
                     message := "Could not create the destination directory"
                     description := some msg
                     severity := .ERROR
                     kwargs := ("localDirectoryPath",
                       .str local_directory_path) :: log_metadata }]
          result := .ok (some false) }
  else
    let download_command := bunchCommand bucket_name local_directory_path
      data_cloud_path activate_recursive_download activate_parallel_download
    let log_metadata := dictUpdate log_metadata
      [("bucketName", .str bucket_name),
       ("dataCloudLocation", optValue data_cloud_path),
       ("isRecursiveDownload", .bool activate_recursive_download),
       ("isParallelDownload", .bool activate_parallel_download)]
    let errorKwnames := ["logger_name", "event_name", "message",
      "description", "severity", "funcName", "eventGroup", "environment",
      "bucketName", "dataCloudLocation", "isRecursiveDownload",
      "isParallelDownload"]
    let errorHandler : String → PyRun := fun caught_msg =>
      match coreGclKeywordCall errorKwnames with
      | .error e2 =>
        { commands := [download_command]
          result := .error e2 }
      | .ok _ =>
        { commands := [download_command]
          logs := [{ logger := logger_name
                     eventName := "Artifacts Downloading Error"
                     message := "An unexpected error occurred while trying to download the artifacts."
                     description := some caught_msg
                     severity := .ERROR
                     kwargs := log_metadata }]
          result := .ok (some false) }
    match sub with
    | .completed _ =>
      match coreGclKeywordCall ["logger_name", "event_name", "message",
          "localDirectoryPath", "localServerIP", "funcName",
          "eventGroup", "environment", "bucketName", "dataCloudLocation",
          "isRecursiveDownload", "isParallelDownload"] with
      | .error e1 => errorHandler (pyErrMsg e1)
      | .ok _ =>
        { commands := [download_command]
          logs := [{ logger := logger_name
                     eventName := "Artifacts Bunch Download"
                     message := "Artifacts downloading completed successfully."
                     kwargs :=
                       ("localDirectoryPath", .str local_directory_path) ::
                       ("localServerIP", .str server_ip) :: log_metadata }]
          result := .ok (some true) }
    | .raisedErr msg => errorHandler msg

/-- A MongoDB validation schema document (the JSON document passed as
the `validator`), as flat key/value pairs. -/
abbrev SchemaDoc := List (String × String)

/-- The in-memory fields of `MongoHandler` (`src/infra/db.py`):
`_curr_db_name`, the database the `_db` attribute points at,
`_logger_name` and `_app_name`. -/
structure MongoHandler where
  currDbName : String
  dbRef : String
  loggerName : String
  appName : Option String := none
deriving DecidableEq, Repr

/-- `MongoHandler.change_db`: first `self._db` is rebound and
`self._curr_db_name` is assigned the requested name, and only then the
log event is emitted - so its `old_db` keyword reads the
already-updated `self._curr_db_name`.  The method has no `return`,
so its value is Python `None`. -/
def MongoHandler.change_db (h : MongoHandler) (db_name : String) :
    MongoHandler × PyRun :=
  let h1 := { h with dbRef := db_name }
  let h2 := { h1 with currDbName := db_name }
  (h2,
   { logs := [{ logger := h2.loggerName
                eventName := "DB Changed"
                message := "A user requested to change the db."
                kwargs :=
                  [("old_db", .str h2.currDbName),
                   ("new_db", .str db_name),
                   ("class_name", .str "MongoHandler"),
                   ("func_name", .str "change_db"),
                   ("event_group", .str "Mongo")] }]
     result := .ok none })

/-- Outcome of the vendor call `self._db.create_collection` inside
`MongoHandler.create_collection`: success, a
`pymongo.errors.CollectionInvalid` (the collection already exists), or
a connection-level failure (`ConnectionFailure` or
`ServerSelectionTimeoutError`). -/
inductive CreateColVendor where
  | ok
  | collectionInvalid (msg : String)
  | connectionFailure (msg : String)
deriving DecidableEq, Repr

/-- `MongoHandler.create_collection`, over the vendor outcome.  On
success it logs one INFO-severity event and returns True; on
`CollectionInvalid` it logs one ERROR-severity event and returns False;
on a connection failure it only prints a local message and returns
False, emitting no structured log event. -/
def MongoHandler.create_collection (h : MongoHandler)
    (o : CreateColVendor) (col_name : String) : PyRun :=
  match o with
  | .ok =>
    { logs := [{ logger := h.loggerName
                 eventName := "Collection Created"
                 message := "A new collection was created."
                 kwargs :=
                   [("collection_name", .str col_name),
                    ("class_name", .str "MongoHandler"),
                    ("func_name", .str "create_collection"),
                    ("event_group", .str "Mongo")] }]
      result := .ok (some true) }
  | .collectionInvalid msg =>
    { logs := [{ logger := h.loggerName
                 eventName := "Collection Error"
                 message := msg
                 severity := .ERROR
                 kwargs :=
                   [("class_name", .str "MongoHandler"),
                    ("func_name", .str "create_collection"),
                    ("event_group", .str "Mongo")] }]
      result := .ok (some false) }
  | .connectionFailure msg =>
    { prints := ["A connection error has occurred while trying to create a collection.\nError message: " ++ msg]
      result := .ok (some false) }

/-- Outcome of the vendor call `self._db.command('collMod', ...)`
inside `MongoHandler.update_collection_schema`: a response document
(of which the code only inspects the `errmsg` field), an
`OperationFailure`, or a connection-level failure. -/
inductive CollModVendor where
  | ok (errmsg : Option String)
  | operationFailure (msg : String)
  | connectionFailure (msg : String)
deriving DecidableEq, Repr

/-- `MongoHandler.update_collection_schema`, over the vendor outcome.
A response carrying `errmsg` yields one WARNING-severity event and
False; a clean response yields one INFO-severity event and True; an
`OperationFailure` yields one ERROR-severity event and False; a
connection failure only prints locally and returns False. -/
def MongoHandler.update_collection_schema (h : MongoHandler)
    (o : CollModVendor) (col_name : String) (schema : SchemaDoc)
    (validation_level validation_action : String) : PyRun :=
  match o with
  | .ok (some errmsg) =>
    { logs := [{ logger := h.loggerName
                 eventName := "Collection Error"
                 message := errmsg
                 severity := .WARNING
                 kwargs :=
                   [("collection_name", .str col_name),
                    ("class_name", .str "MongoHandler"),
                    ("func_name", .str "update_collection_schema"),
                    ("event_group", .str "Mongo")] }]
      result := .ok (some false) }
  | .ok none =>
    { logs := [{ logger := h.loggerName
                 eventName := "Collection Schema Updated"
                 message := "The new schema was applied."
                 kwargs :=
                   [("collection_name", .str col_name),
                    ("validator", .doc schema),
                    ("validationLevel", .str validation_level),
                    ("validationAction", .str validation_action),
                    ("class_name", .str "MongoHandler"),
                    ("func_name", .str "update_collection_schema"),
                    ("event_group", .str "Mongo")] }]
      result := .ok (some true) }
  | .operationFailure msg =>
    { logs := [{ logger := h.loggerName
                 eventName := "Collection Error"
                 message := "The operation has failed, the schema was not updated."
                 description := some msg
                 severity := .ERROR
                 kwargs :=
                   [("collection_name", .str col_name),
                    ("class_name", .str "MongoHandler"),
                    ("func_name", .str "update_collection_schema"),
                    ("event_group", .str "Mongo")] }]
      result := .ok (some false) }
  | .connectionFailure msg =>
    { prints := ["A connection error has occurred while trying to update the collection schema.\nError message: " ++ msg]
      result := .ok (some false) }

/-- State of the external MongoDB database: the collections of the
current database, each with its installed validator (if any). -/
structure MongoDb where
  collections : List (String × Option SchemaDoc) := []
deriving DecidableEq, Repr

/-- Modelled from the spec (section 6, database contract; section 8):
the vendor `create_collection` call succeeds on a fresh name and raises
`CollectionInvalid` when a collection of that name already exists. -/
def mongoVendorCreateCollection (db : MongoDb) (col_name : String) :
    MongoDb × CreateColVendor :=
  if db.collections.any (fun p => p.fst = col_name) then
    (db, .collectionInvalid ("collection " ++ col_name ++ " already exists"))
  else
    ({ collections := db.collections ++ [(col_name, none)] }, .ok)

/-- Modelled from the spec (section 6, database contract): the vendor
`collMod` command rejects a syntactically invalid validator document
with an `OperationFailure`, leaving the database - in particular the
previously installed validator - unchanged; on a valid document for an
existing collection it installs the validator and returns a clean
response.  `schema_valid` is the vendor verdict on the syntactic
validity of `schema`. -/
def mongoVendorCollMod (db : MongoDb) (col_name : String)
    (schema : SchemaDoc) (schema_valid : Bool) : MongoDb × CollModVendor :=
  if schema_valid = false then
    (db, .operationFailure "The validator specification is invalid")
  else if db.collections.any (fun p => p.fst = col_name) then
    ({ collections := db.collections.map (fun p =>
        if p.fst = col_name then (p.fst, some schema) else p) },
     .ok none)
  else
    (db, .operationFailure ("ns does not exist: " ++ col_name))

/-- End-to-end `create_collection` against the vendor-state model. -/
def create_collection_run (h : MongoHandler) (db : MongoDb)
    (col_name : String) : MongoDb × PyRun :=
  let p := mongoVendorCreateCollection db col_name
  (p.fst, h.create_collection p.snd col_name)

/-- End-to-end `update_collection_schema` against the vendor-state
model. -/
def update_collection_schema_run (h : MongoHandler) (db : MongoDb)
    (schema_valid : Bool) (col_name : String) (schema : SchemaDoc)
    (validation_level validation_action : String) : MongoDb × PyRun :=
  let p := mongoVendorCollMod db col_name schema schema_valid
  (p.fst, h.update_collection_schema p.snd col_name schema
    validation_level validation_action)

/-- C1: the claim says `download_artifact` with a nonexistent object
returns False, emits exactly one WARNING/ERROR event and never raises.
Evaluating both revisions at the failing inputs: in the core revision
the blob-is-None branch and the bucket-`NotFound` handler both raise
`TypeError` at their keyword-style calls of the refactored core
`gcl_log_event`, and in the `src/infra/gcp` revision both branches
raise `AttributeError` evaluating `Environments.INFRA`; no event is
emitted and no boolean (nor `None`) is returned. -/
theorem claim_c1_nonexistent_object_raises :
    (download_artifact (.bucketMissing "404 GET: bucket b not found")
      "b" "o" 1 "/data" "art.bin" "infra" "10.0.0.1").result =
      .error (.typeError
        "gcl_log_event got an unexpected keyword argument event_name") ∧
    (download_artifact (.bucketMissing "404 GET: bucket b not found")
      "b" "o" 1 "/data" "art.bin" "infra" "10.0.0.1").logs = [] ∧
    (download_artifact .blobMissing
      "b" "o" 1 "/data" "art.bin" "infra" "10.0.0.1").result =
      .error (.typeError
        "gcl_log_event got an unexpected keyword argument event_name") ∧
    (download_artifact .blobMissing
      "b" "o" 1 "/data" "art.bin" "infra" "10.0.0.1").logs = [] ∧
    (download_artifact_gcp .blobMissing
      "b" "o" 1 "/data" "art.bin" "infra" "10.0.0.1").result =
      .error
        (.attributeError "type object Environments has no attribute INFRA") ∧
    (download_artifact_gcp (.bucketMissing "404 GET: bucket b not found")
      "b" "o" 1 "/data" "art.bin" "infra" "10.0.0.1").result =
      .error
        (.attributeError "type object Environments has no attribute INFRA") ∧
    (download_artifact_gcp .blobMissing
      "b" "o" 1 "/data" "art.bin" "infra" "10.0.0.1").logs = [] :=
  ⟨rfl, rfl, rfl, rfl, rfl, rfl, rfl⟩

/-- C2: the claim says every call of `download_artifacts_bunch` with
the directory absent attempts the creation and then returns False.
When `os.mkdir` succeeds the function does return False with the
bulk-copy phase unreached (proved for every input); but when
`os.mkdir` raises `OSError`, the `except OSError` handler's
keyword-style call of the refactored core `gcl_log_event` raises
`TypeError`, so the `return False` below the handler is never reached
and the function raises instead - the bulk-copy phase is still
unreached. -/
theorem claim_c2_dir_missing_mkdir_failure_raises (sub : RunSub)
    (bucket_name path : String) (data_cloud_path : Option String)
    (recur par : Bool) (logger_name server_ip : String) :
    (download_artifacts_bunch false .ok sub bucket_name path
      data_cloud_path recur par logger_name server_ip).result =
      .ok (some false) ∧
    (download_artifacts_bunch false .ok sub bucket_name path
      data_cloud_path recur par logger_name server_ip).mkdirCalls =
      [path] ∧
    (download_artifacts_bunch false .ok sub bucket_name path
      data_cloud_path recur par logger_name server_ip).commands = [] ∧
    (download_artifacts_bunch false (.oserror "Permission denied") sub
      bucket_name path data_cloud_path recur par logger_name
      server_ip).result =
      .error (.typeError
        "gcl_log_event got an unexpected keyword argument event_name") ∧
    (download_artifacts_bunch false (.oserror "Permission denied") sub
      bucket_name path data_cloud_path recur par logger_name
      server_ip).mkdirCalls = [path] ∧
    (download_artifacts_bunch false (.oserror "Permission denied") sub
      bucket_name path data_cloud_path recur par logger_name
      server_ip).commands = [] :=
  ⟨rfl, rfl, rfl, rfl, rfl, rfl⟩

/-- C3: the claim says the log emitted by `change_db` carries the
previous database name as `old_db`.  Evaluating the embedding at the
failing input (current database `db1`, request `db2`): the assignment
`self._curr_db_name = db_name` precedes the log call, so the logged
`old_db` is the new name `db2`, not the previous name `db1`. -/
theorem claim_c3_change_db_logs_new_name_as_old :
    (({ currDbName := "db1", dbRef := "db1", loggerName := "infra" } :
      MongoHandler).change_db "db2").fst.currDbName = "db2" ∧
    ((({ currDbName := "db1", dbRef := "db1", loggerName := "infra" } :
      MongoHandler).change_db "db2").snd.logs.map
        (fun c => dlookup c.kwargs "old_db")) = [some (.str "db2")] ∧
    ¬ ((({ currDbName := "db1", dbRef := "db1", loggerName := "infra" } :
      MongoHandler).change_db "db2").snd.logs.map
        (fun c => dlookup c.kwargs "old_db")) = [some (.str "db1")] := by
  refine ⟨rfl, rfl, ?_⟩
  decide

/-- A concrete `MongoHandler` value used by the theorems below: the
fields a freshly constructed handler holds. -/
def sampleHandler : MongoHandler :=
  { currDbName := "evo-dev", dbRef := "evo-dev", loggerName := "infra" }

/-- C4 counterexample: the claim says `create_collection` logs a
WARNING-severity event when the collection already exists; at that
input the emitted event has ERROR severity, so no WARNING-severity
event is logged. -/
theorem claim_c4_counterexample :
    (sampleHandler.create_collection
        (.collectionInvalid "collection new_evo_col already exists")
        "new_evo_col").result = .ok (some false) ∧
    ((sampleHandler.create_collection
        (.collectionInvalid "collection new_evo_col already exists")
        "new_evo_col").logs.map LogCall.severity) = [.ERROR] ∧
    ∀ c ∈ (sampleHandler.create_collection
        (.collectionInvalid "collection new_evo_col already exists")
        "new_evo_col").logs, ¬ c.severity = .WARNING := by
  refine ⟨rfl, rfl, ?_⟩
  decide

/-- C4 (amended): `create_collection` returns True and logs one
INFO-severity event on success; on the domain-specific
`CollectionInvalid` error (collection already exists) it returns False
and logs one ERROR-severity event; on a connection failure it returns
False and only prints locally, emitting no structured log event.  Of
two consecutive calls with the same fresh name, the first returns True
and the second returns False. -/
theorem claim_c4_create_collection_contract (h : MongoHandler)
    (db : MongoDb) (col : String)
    (hfresh : db.collections.any (fun p => p.fst = col) = false) :
    ((create_collection_run h db col).snd.result = .ok (some true) ∧
     (create_collection_run h db col).snd.logs.map LogCall.severity =
       [.INFO] ∧
     (create_collection_run h db col).snd.prints = []) ∧
    ((create_collection_run h (create_collection_run h db col).fst
        col).snd.result = .ok (some false) ∧
     (create_collection_run h (create_collection_run h db col).fst
        col).snd.logs.map LogCall.severity = [.ERROR] ∧
     (create_collection_run h (create_collection_run h db col).fst
        col).snd.prints = []) ∧
    (∀ m, (h.create_collection (.connectionFailure m) col).result =
        .ok (some false) ∧
      (h.create_collection (.connectionFailure m) col).logs = [] ∧
      (h.create_collection (.connectionFailure m) col).prints.length
        = 1) := by
  refine ⟨?_, ?_, ?_⟩
  · simp [create_collection_run, mongoVendorCreateCollection, hfresh,
      MongoHandler.create_collection]
  · simp [create_collection_run, mongoVendorCreateCollection, hfresh,
      MongoHandler.create_collection]
  · intro m
    simp [MongoHandler.create_collection]

/-- C4 witness: the contract theorem applied at a concrete handler,
empty database and collection name. -/
theorem claim_c4_witness :
    (create_collection_run sampleHandler { collections := [] }
      "new_evo_col").snd.result = .ok (some true) ∧
    (create_collection_run sampleHandler
      (create_collection_run sampleHandler { collections := [] }
        "new_evo_col").fst "new_evo_col").snd.result =
      .ok (some false) :=
  ⟨(claim_c4_create_collection_contract sampleHandler
      { collections := [] } "new_evo_col" (by decide)).1.1,
   (claim_c4_create_collection_contract sampleHandler
      { collections := [] } "new_evo_col" (by decide)).2.1.1⟩

/-- C5: the claim says a name-conflict error makes `create_bucket`
return False and log a warning-severity event, that other vendor
errors propagate, and that of two identical consecutive calls the
first returns True and the second False.  Evaluating the embeddings:
in the core revision both the success branch and the `Conflict` branch
raise `TypeError` at their keyword-style calls of the refactored core
`gcl_log_event` - so the first call never returns True and a
conflicting call neither returns False nor logs any event - and in the
`src/infra/gcp` revision both branches raise `AttributeError` on
`Environments.INFRA`; only the propagation of other vendor errors
holds as claimed. -/
theorem claim_c5_create_bucket_raises :
    (create_bucket_core .ok "b" "app" .STANDARD "infra").result =
      .error (.typeError
        "gcl_log_event got an unexpected keyword argument event_name") ∧
    (create_bucket_core .ok "b" "app" .STANDARD "infra").logs = [] ∧
    (create_bucket_core (.conflict "409 POST: bucket app_b already exists")
      "b" "app" .STANDARD "infra").result =
      .error (.typeError
        "gcl_log_event got an unexpected keyword argument event_name") ∧
    (create_bucket_core (.conflict "409 POST: bucket app_b already exists")
      "b" "app" .STANDARD "infra").logs = [] ∧
    (∀ m, (create_bucket_core (.otherError m)
      "b" "app" .STANDARD "infra").result = .error (.cloudError m)) ∧
    (create_bucket_gcp (.conflict "409 POST: bucket app_b already exists")
      "b" "app" .STANDARD "infra").result =
      .error
        (.attributeError "type object Environments has no attribute INFRA") :=
  ⟨rfl, rfl, rfl, rfl, fun _ => rfl, rfl⟩

/-- C6: the claim says the result of `download_artifacts_bunch`
reports the bulk-copy subprocess's success.  With the directory
present the function never returns a boolean: the subprocess is
invoked (the command is recorded in the trace), then the
success-branch keyword-style log call raises `TypeError` inside the
`try`, `except Exception` catches it, and the handler's own log call
raises `TypeError` again, which escapes; a raising subprocess
invocation takes the same handler path.  The subprocess exit status is
never inspected. -/
theorem claim_c6_bunch_raises_typeerror :
    (download_artifacts_bunch true .ok (.completed 1) "b" "/data" none
      false false "infra" "10.0.0.1").result =
      .error (.typeError
        "gcl_log_event got an unexpected keyword argument event_name") ∧
    (download_artifacts_bunch true .ok (.completed 1) "b" "/data" none
      false false "infra" "10.0.0.1").commands =
      [["gsutil", "cp", "gs://b", "/data"]] ∧
    (download_artifacts_bunch true .ok (.completed 1) "b" "/data" none
      false false "infra" "10.0.0.1").logs = [] ∧
    (download_artifacts_bunch true .ok (.completed 0) "b" "/data" none
      false false "infra" "10.0.0.1").result =
      .error (.typeError
        "gcl_log_event got an unexpected keyword argument event_name") ∧
    (download_artifacts_bunch true .ok (.raisedErr "gsutil: not found")
      "b" "/data" none false false "infra" "10.0.0.1").result =
      .error (.typeError
        "gcl_log_event got an unexpected keyword argument event_name") :=
  ⟨rfl, rfl, rfl, rfl, rfl⟩

/-- C7: `update_collection_schema` with a syntactically invalid schema
document (the vendor rejects the validator with `OperationFailure`)
returns False without raising - the result is a normal return, one
ERROR-severity event is logged - and the database state, in particular
the previously installed validator of the collection, is unchanged. -/
theorem claim_c7_invalid_schema_no_mutation (h : MongoHandler)
    (db : MongoDb) (col : String) (schema : SchemaDoc)
    (lvl act : String) :
    (update_collection_schema_run h db false col schema lvl act).fst =
      db ∧
    (update_collection_schema_run h db false col schema lvl
      act).snd.result = .ok (some false) ∧
    ((update_collection_schema_run h db false col schema lvl
      act).snd.logs.map LogCall.severity) = [.ERROR] := by
  refine ⟨?_, ?_, ?_⟩ <;>
    simp [update_collection_schema_run, mongoVendorCollMod,
      MongoHandler.update_collection_schema]

/-- C8: the claim says the environment enumeration has members exactly
TEST, DEV, STAGING, PROD and INFRA.  In `src/infra/enums.py` the
`Environments` enum defines only TEST, DEV, STAGING and PROD - no
member is named INFRA - while the storage façade of
`src/infra/gcp/gcs.py` passes `Environments.INFRA` to its log calls,
so evaluating `create_bucket` there raises `AttributeError` instead of
logging.  The spec-modelled enumeration of the missing
`infra/core/enums.py` does contain INFRA. -/
theorem claim_c8_environments_missing_infra :
    Environments.members.map Environments.pyName =
      ["TEST", "DEV", "STAGING", "PROD"] ∧
    Environments.fromName "INFRA" = none ∧
    (∀ e : Environments, ¬ e.pyName = "INFRA") ∧
    (create_bucket_gcp_run {} "b" "app" .STANDARD "infra").snd.result =
      .error
        (.attributeError "type object Environments has no attribute INFRA") :=
  ⟨rfl, rfl, fun e => by cases e <;> decide, rfl⟩

/-- C9: in both revisions of `create_bucket`
(`src/infra/core/gcp/gcs.py` and `src/infra/gcp/gcs.py`) the name
handed to the vendor bucket-creation call is exactly
`app_name + '_' + bucket_name`. -/
theorem claim_c9_create_bucket_unique_name (s : GcsState)
    (bn an lg : String) (sc : StorageClasses) :
    (create_bucket_core_run s bn an sc lg).fst.createRequests =
      s.createRequests ++ [an ++ "_" ++ bn] ∧
    (create_bucket_gcp_run s bn an sc lg).fst.createRequests =
      s.createRequests ++ [an ++ "_" ++ bn] := by
  by_cases h : (an ++ "_" ++ bn) ∈ s.buckets <;>
    constructor <;>
      simp [create_bucket_core_run, create_bucket_gcp_run,
        gcsVendorCreate, h]

/-- C10 counterexample: the claim says every `gcl_log_event` call sends
the base mapping `(message, name, description, env)` updated with the
extra fields; the `src/src/logging.py` revision builds its base dict
without an `env` entry, so the record of a call with no extra fields
has no `env` key at all, unlike the claimed record. -/
theorem claim_c10_counterexample :
    dlookup (gcl_log_event_src "lg" "ev" "msg" none .INFO []).info
      "env" = none ∧
    dlookup (claimedLogRecord "msg" "ev" none "dev" []) "env" =
      some (.str "dev") := by
  refine ⟨?_, ?_⟩ <;> decide

/-- C10 (amended): in `src/infra/gcp/gcl.py` the record is the base
mapping `(message, name, description, env)` updated with the extra
keyword fields, and in `src/src/logging.py` it is the base mapping
`(message, name, description)` - with no `env` entry - updated the same
way; in both, an extra field whose key matches a base key silently
overwrites the base value in the logged record. -/
theorem claim_c10_kwargs_overwrite_base (ln en m : String)
    (d : Option String) (e : Environments) (sv : LogSeverities)
    (kwargs : List (String × Value)) (k : String) (v : Value)
    (hk : dlookup kwargs k = some v) :
    dlookup (gcl_log_event_gcp ln en m d e sv kwargs).info k = some v ∧
    dlookup (gcl_log_event_src ln en m d sv kwargs).info k = some v := by
  unfold gcl_log_event_gcp gcl_log_event_src
  constructor <;> (rw [dlookup_dictUpdate]; simp [hk])

/-- C10 witness: a `message` extra field overwrites the base message in
the record of the `src/infra/gcp/gcl.py` revision. -/
theorem claim_c10_witness :
    dlookup (gcl_log_event_gcp "lg" "ev" "msg" none .DEV .INFO
      [("message", .str "override")]).info "message" =
      some (.str "override") :=
  (claim_c10_kwargs_overwrite_base "lg" "ev" "msg" none .DEV .INFO
    [("message", .str "override")] "message" (.str "override")
    (by decide)).1
